import Mathlib

/-
Verification of the AI scheduling assistant (ai_scheduler).

Shallow embedding conventions:
* Instants are modelled as natural numbers: minutes elapsed since a
  reference Monday 00:00 in the wall-clock frame of the Python
  `datetime` values being compared (the code compares datetimes of one
  frame with each other; `scheduler_agent` uses naive UTC throughout).
  The concrete reference used for the mock data is Monday 2025-01-06
  00:00 UTC, so Thursday 2025-07-24 is day 199.
* The IST wall clock used by `_parse_time_constraints` is UTC + 330
  minutes.
* Busy intervals and candidate slots are pairs (start, end) of minutes.
* The Python `while` loops advance a cursor by at least one minute per
  iteration and stop at a bound, so each loop is embedded with an
  explicit fuel argument that the wrapper instantiates with a budget
  (`bound + 1 - start`) that the loop can never exhaust before its own
  exit condition fires; running out of fuel returns the loop's
  no-result value.
-/

namespace AIScheduler

/-- A busy interval or a candidate slot: (start minute, end minute). -/
abbrev Interval := Nat × Nat

/-- Hour-of-day of an instant (`datetime.hour`). -/
def hourOf (t : Nat) : Nat := t % 1440 / 60

/-- Day-of-week of an instant, 0 = Monday (`datetime.weekday()`). -/
def weekday (t : Nat) : Nat := t / 1440 % 7

/-- The half-open overlap test used by every slot check in the source:
`slot_start < event_end and slot_end > event_start`. -/
def overlaps (s e : Nat) (ev : Interval) : Bool :=
  decide (s < ev.2) && decide (e > ev.1)

/-- `calendar_manager.find_available_slots` (second definition): a slot
is available iff it overlaps no event of any attendee. -/
def isAvailable (events : List (List Interval)) (s e : Nat) : Bool :=
  events.all fun evs => evs.all fun ev => !(overlaps s e ev)

/-- Advance of the scan cursor in the second `find_available_slots`:
`current_date += timedelta(minutes=30)` followed by
`if current_date.hour >= 17: current_date = (current_date + 1 day).replace(hour=9, minute=0, ...)`. -/
def nextSlot9 (c : Nat) : Nat :=
  let c2 := c + 30
  if 17 ≤ hourOf c2 then ((c2 + 1440) / 1440) * 1440 + 9 * 60 else c2

/-- The candidate loop of the second `find_available_slots`
(`while current_date < time_max`), with explicit fuel. A slot is
recorded when the candidate is on a weekday, inside 09:00-17:00, and
available for all attendees. -/
def scanSlots (events : List (List Interval)) (dur tmax : Nat) :
    Nat → Nat → List Interval
  | 0, _ => []
  | fuel + 1, c =>
    if c < tmax then
      let rest := scanSlots events dur tmax fuel (nextSlot9 c)
      if weekday c < 5 ∧ 9 ≤ hourOf c ∧ hourOf c < 17 then
        let e := c + dur
        if isAvailable events c e then (c, e) :: rest else rest
      else rest
    else []

/-- Initial cursor of the second `find_available_slots`:
`current_date = time_min.replace(hour=9, minute=0, second=0, microsecond=0)`,
then `if current_date.hour >= 17:` move to 09:00 next day (that branch
is dead since the hour was just set to 9; kept for faithfulness). -/
def scanStart (tmin : Nat) : Nat :=
  let c := (tmin / 1440) * 1440 + 9 * 60
  if 17 ≤ hourOf c then ((c + 1440) / 1440) * 1440 + 9 * 60 else c

/-- The scan phase of the second `find_available_slots`: everything
before the default-slot fallback. -/
def scanPhase (events : List (List Interval)) (dur tmin tmax : Nat) : List Interval :=
  scanSlots events dur tmax (tmax + 1 - scanStart tmin) (scanStart tmin)

/-- Start of the fallback slots: `time_min.replace(hour=10, minute=0, ...)`;
if that is before `datetime.utcnow()`, `utcnow() + 1 day` at 10:00. -/
def default_start (tmin now : Nat) : Nat :=
  if (tmin / 1440) * 1440 + 10 * 60 < now then ((now + 1440) / 1440) * 1440 + 10 * 60
  else (tmin / 1440) * 1440 + 10 * 60

/-- Fallback slots of the second `find_available_slots`: for
`i in range(3)`, the day `default_start + i days` gives a slot iff it
is a weekday. -/
def default_slots_from (dur ds : Nat) : List Interval :=
  (List.range 3).filterMap fun i =>
    let d := ds + 1440 * i
    if weekday d < 5 then some (d, d + dur) else none

/-- The complete fallback of the second `find_available_slots`. -/
def default_slots (dur tmin now : Nat) : List Interval :=
  default_slots_from dur (default_start tmin now)

/-- `GoogleCalendarManager.find_available_slots` — the second, effective
definition (calendar_manager.py lines 476-568): scan on a 30-minute
grid inside business hours; if the scan found nothing, emit default
slots; return the first 10. `now` stands for `datetime.utcnow()`. -/
def find_available_slots (events : List (List Interval))
    (dur tmin tmax now : Nat) : List Interval :=
  let slots := scanPhase events dur tmin tmax
  let slots := if slots.isEmpty then default_slots dur tmin now else slots
  slots.take 10

/-- Inner per-day candidate loop of the first `find_available_slots`
definition (calendar_manager.py lines 197-270):
`while slot_start + slot_duration <= day_end`, stepping 30 minutes.
The fuel 17 covers all its iterations (at most 17 starts fit between
09:00 and 17:00 at a 30-minute step). -/
def v1DaySlots (events : List (List Interval)) (dur dayEnd : Nat) :
    Nat → Nat → List Interval
  | 0, _ => []
  | fuel + 1, s =>
    if s + dur ≤ dayEnd then
      let rest := v1DaySlots events dur dayEnd fuel (s + 30)
      if isAvailable events s (s + dur) then (s, s + dur) :: rest else rest
    else []

/-- Outer day loop of the first `find_available_slots` definition:
`while current_day <= end_day`, skipping weekends, scanning each
weekday from 09:00 to 17:00. -/
def v1DayLoop (events : List (List Interval)) (dur endDay : Nat) :
    Nat → Nat → List Interval
  | 0, _ => []
  | fuel + 1, d =>
    if d ≤ endDay then
      if 5 ≤ weekday d then v1DayLoop events dur endDay fuel (d + 1440)
      else
        v1DaySlots events dur (d + 17 * 60) 17 (d + 9 * 60)
          ++ v1DayLoop events dur endDay fuel (d + 1440)
    else []

/-- `GoogleCalendarManager.find_available_slots` — the first, shadowed
definition: a per-day scan with weekend skipping and an end-of-day
bound on the slot end, no fallback and no result cap. -/
def find_available_slots_v1 (events : List (List Interval))
    (dur tmin tmax : Nat) : List Interval :=
  v1DayLoop events dur ((tmax / 1440) * 1440)
    (tmax / 1440 - tmin / 1440 + 1) ((tmin / 1440) * 1440)

/-- Cursor advance of `MeetingScheduler._find_available_slot`:
`current_time += 30 minutes`; if the hour reaches 17, jump to 10:00 of
the next day. -/
def nextSlot10 (c : Nat) : Nat :=
  let c2 := c + 30
  if 17 ≤ hourOf c2 then ((c2 + 1440) / 1440) * 1440 + 10 * 60 else c2

/-- Loop body of `MeetingScheduler._find_available_slot`
(`while current_time + duration <= time_max`), with explicit fuel.
The requester's events and each attendee's events are checked with the
same half-open overlap test; the first free candidate is returned.
Note: the candidate itself is never checked against weekdays or
business hours. -/
def findSlotAux (reqEvs : List Interval) (attEvs : List (List Interval))
    (dur tmax : Nat) : Nat → Nat → Option Interval
  | 0, _ => none
  | fuel + 1, c =>
    if c + dur ≤ tmax then
      let e := c + dur
      let reqFree := reqEvs.all fun ev => !(overlaps c e ev)
      let attFree := attEvs.all fun evs => evs.all fun ev => !(overlaps c e ev)
      if reqFree && attFree then some (c, e)
      else findSlotAux reqEvs attEvs dur tmax fuel (nextSlot10 c)
    else none

/-- `MeetingScheduler._find_available_slot` (meeting_scheduler.py lines
29-85). The initial candidate is `time_min.replace(second=0, microsecond=0)`,
which at minute granularity is `time_min` itself. -/
def find_available_slot (reqEvs : List Interval) (attEvs : List (List Interval))
    (tmin tmax dur : Nat) : Option Interval :=
  findSlotAux reqEvs attEvs dur tmax (tmax + 1 - tmin) tmin

/-! ### Busy-interval lookup and its mock fallback -/

/-- The hard-coded mock events of
`GoogleCalendarManager._get_mock_events`, encoded in minutes since the
reference Monday (2025-07-24 is day 199; IST instants converted to the
UTC frame, e.g. 10:30 IST = 05:00 UTC = 199*1440 + 300). -/
def mock_events (user : String) : List Interval :=
  if user = "userone.amd@gmail.com" then
    [(286860, 286890)]
  else if user = "usertwo.amd@gmail.com" then
    [(286830, 286860), (286860, 286890)]
  else if user = "userthree.amd@gmail.com" then
    [(286830, 286860), (287010, 287070), (286860, 286890)]
  else
    [(286770, 286800)]

/-- `GoogleCalendarManager.get_events`: `none` stands for any failure of
the service lookup or the API call; both the inner and the outer
`except` return the user's mock events, so the function never raises. -/
def get_events (user : String) (api : Option (List Interval)) : List Interval :=
  match api with
  | some evs => evs
  | none => mock_events user

/-! ### Time-constraint parsing (MeetingScheduler._parse_time_constraints) -/

/-- Character-list prefix test used by the substring test. -/
def startsWithChars : List Char → List Char → Bool
  | _, [] => true
  | [], _ :: _ => false
  | c :: cs, p :: ps => c == p && startsWithChars cs ps

/-- Character-list substring test: the Python `pat in s`. -/
def sublistContains : List Char → List Char → Bool
  | [], pat => pat.isEmpty
  | c :: rest, pat => startsWithChars (c :: rest) pat || sublistContains rest pat

/-- ASCII lower-casing of one character (`str.lower()` restricted to
the ASCII vocabulary the parser matches against). -/
def lowerChar (c : Char) : Char :=
  if 'A' ≤ c ∧ c ≤ 'Z' then Char.ofNat (c.toNat + 32) else c

/-- `str.lower()` on the hint text. -/
def toLowerStr (s : String) : String := ⟨s.data.map lowerChar⟩

/-- `pat in text.lower()` as used by the parser (pattern literals are
already lower case). -/
def strContains (s pat : String) : Bool := sublistContains s.data pat.data

/-- The weekday dictionary of `_parse_time_constraints`, in source
order. -/
def days_list : List (String × Nat) :=
  [("monday", 0), ("tuesday", 1), ("wednesday", 2),
   ("thursday", 3), ("friday", 4), ("saturday", 5), ("sunday", 6)]

/-- The single-day window of the weekday branches: `days_ahead =
(day_num - now.weekday()) % 7`, bumped to 7 when the day is today and
the hour is at or past 17; window is that day 10:00-17:00 IST,
converted back to UTC (minus 330 minutes). -/
def day_window (now_ist wd hr day_num : Nat) : Nat × Nat :=
  let da := (7 + day_num - wd) % 7
  let da := if da = 0 ∧ 17 ≤ hr then 7 else da
  let nd := now_ist + da * 1440
  ((nd / 1440) * 1440 + 10 * 60 - 330, (nd / 1440) * 1440 + 17 * 60 - 330)

/-- `MeetingScheduler._parse_time_constraints` (meeting_scheduler.py
lines 290-381). `now_utc` is `datetime.now(timezone.utc)` in minutes;
the IST wall clock is `now_utc + 330`. Branch order follows the
source: the guarded thursday/thurs check, the weekday dictionary, then
"next week", then "this week", else the default `[now, now + 7 days)`. -/
def parse_time_constraints (hint : String) (now_utc : Nat) : Nat × Nat :=
  let now_ist := now_utc + 330
  let wd := weekday now_ist
  let hr := hourOf now_ist
  let tc := toLowerStr hint
  if !(hint == "") && (strContains tc "thursday" || strContains tc "thurs") then
    day_window now_ist wd hr 3
  else
    match days_list.find? (fun p => strContains tc p.1) with
    | some p => day_window now_ist wd hr p.2
    | none =>
      if strContains tc "next week" then
        let da := (7 + 0 - wd) % 7
        let da := if da = 0 then 7 else da
        let nm := now_ist + da * 1440
        ((nm / 1440) * 1440 + 10 * 60 - 330,
         ((nm + 4 * 1440) / 1440) * 1440 + 17 * 60 - 330)
      else if strContains tc "this week" then
        let tmin_ist :=
          if 17 ≤ hr then ((now_ist + 1440) / 1440) * 1440 + 10 * 60
          else (now_ist / 1440) * 1440 + hr * 60
        let da := (7 + 4 - wd) % 7
        if da = 0 ∧ 17 ≤ hr then
          (((now_ist + 3 * 1440) / 1440) * 1440 + 10 * 60 - 330,
           ((now_ist + 7 * 1440) / 1440) * 1440 + 17 * 60 - 330)
        else
          (tmin_ist - 330, (now_ist / 1440) * 1440 + 17 * 60 - 330)
      else (now_utc, now_utc + 7 * 1440)

/-- The closed vocabulary of the parser: a hint containing none of
these patterns matches no branch. -/
def vocab_patterns : List String :=
  ["thursday", "thurs", "monday", "tuesday", "wednesday",
   "friday", "saturday", "sunday", "next week", "this week"]

/-! ### SchedulerAgent workflow (scheduler_agent.py) -/

/-- The fields of `SchedulingRequest` the workflow reads. -/
structure ReqState where
  request_id : String
  subject : String
  email_content : String
  from_email : String
  attendees : List String
  timezone : String
  location : String
deriving DecidableEq, Repr

/-- The event draft built by `SchedulerAgent._schedule_event`. -/
structure EventData where
  summary : String
  description : String
  startTime : Nat
  endTime : Nat
  timeZone : String
  attendees : List String
  location : String
deriving DecidableEq, Repr

/-- The event record returned by the second
`GoogleCalendarManager.create_event`. -/
structure EventOut where
  summary : String
  startTime : Nat
  endTime : Nat
  attendees : List String
  numAttendees : Nat
deriving DecidableEq, Repr

/-- One entry of `SchedulingResponse.scheduled_events`. -/
structure ScheduledEventOut where
  start_time : Nat
  end_time : Nat
  attendees : List String
  summary : String
deriving DecidableEq, Repr

/-- `SchedulingResponse` (models/schemas.py). -/
structure SchedulingResponse where
  request_id : String
  status : String
  message : Option String
  scheduled_events : Option (List ScheduledEventOut)
  suggested_times : Option (List Interval)
  errors : Option (List String)
deriving DecidableEq, Repr

/-- The event draft `_schedule_event` builds from the state and the
chosen slot. -/
def event_data_of (st : ReqState) (slot : Interval) : EventData :=
  { summary := st.subject, description := st.email_content,
    startTime := slot.1, endTime := slot.2,
    timeZone := st.timezone, attendees := st.attendees,
    location := st.location }

/-- The fallback event dict the second `create_event` builds from the
draft when no service exists for the user or the API call fails
(`len(...) or 1` maps 0 to 1). -/
def fallback_event (ed : EventData) : EventOut :=
  { summary := ed.summary, startTime := ed.startTime, endTime := ed.endTime,
    attendees := ed.attendees,
    numAttendees := if ed.attendees.length = 0 then 1 else ed.attendees.length }

/-- `GoogleCalendarManager.create_event` — the second, effective
definition (calendar_manager.py lines 430-474). `hasService` is
`user_email in self.services`; `apiOk` is success of the insert call;
`apiEvent` is the event the API would echo back. Every failure path
returns the fallback dict; the function never raises. -/
def create_event (hasService apiOk : Bool) (apiEvent : EventOut)
    (ed : EventData) : EventOut :=
  if !hasService then fallback_event ed
  else if apiOk then apiEvent
  else fallback_event ed

/-- The data flowing from the branch nodes into
`SchedulerAgent._generate_response`: either the schedule branch's
payload (with `scheduled_event` present) or the conflict branch's. -/
inductive WorkflowData where
  | scheduled (st : ReqState) (event : EventOut) (slot : Interval)
  | conflict (st : ReqState) (suggested : List Interval)

/-- `SchedulerAgent._generate_response` (lines 166-198): the scheduled
branch reports a fixed success message and the chosen slot; the
conflict branch reports the suggestions. The created event itself is
never read. -/
def generate_response : WorkflowData → SchedulingResponse
  | .scheduled st _ slot =>
    { request_id := st.request_id, status := "scheduled",
      message := some "Meeting successfully scheduled",
      scheduled_events := some [{ start_time := slot.1, end_time := slot.2,
                                  attendees := st.attendees,
                                  summary := st.subject }],
      suggested_times := none, errors := none }
  | .conflict st sugg =>
    { request_id := st.request_id, status := "conflict",
      message := some "No available slots found. Here are some suggested times:",
      scheduled_events := none, suggested_times := some sugg, errors := none }

/-- `SchedulerAgent._schedule_event` applied to the first available
slot: builds the draft, calls `create_event`, and passes state, event
and slot on. -/
def schedule_event_node (st : ReqState) (slot : Interval)
    (hasService apiOk : Bool) (apiEvent : EventOut) : WorkflowData :=
  .scheduled st (create_event hasService apiOk apiEvent (event_data_of st slot)) slot

/-- `SchedulerAgent._check_availability_decision`: `"available"` iff
the slot list is non-empty. -/
def check_availability_decision (slots : List Interval) : String :=
  if slots.isEmpty then "conflict" else "available"

/-- The top-level `except` of `SchedulerAgent.schedule`. -/
def error_response (rid msg : String) : SchedulingResponse :=
  { request_id := rid, status := "error", message := some msg,
    scheduled_events := none, suggested_times := none, errors := some [msg] }

/-- The composed SchedulerAgent workflow: `_check_availability` over
the primary window `[utcnow, utcnow + 7 days]`, the conditional edge
on `_check_availability_decision`, then `_schedule_event` (first slot)
or `_handle_conflict` (widened window `[utcnow + 1 day, utcnow + 14
days]`, top 3 suggestions), and `_generate_response`. Indexing an
empty slot list on the available branch would raise and be caught by
`schedule`'s top-level handler (unreachable: that branch requires a
non-empty list). -/
def run_scheduler (events : List (List Interval)) (dur now : Nat)
    (st : ReqState) (hasService apiOk : Bool) (apiEvent : EventOut) :
    SchedulingResponse :=
  let slots := find_available_slots events dur now (now + 7 * 1440) now
  if check_availability_decision slots = "available" then
    match slots with
    | slot :: _ => generate_response (schedule_event_node st slot hasService apiOk apiEvent)
    | [] => error_response st.request_id "list index out of range"
  else
    generate_response
      (.conflict st ((find_available_slots events dur (now + 1440) (now + 14 * 1440) now).take 3))

/-- No-overlap property of a slot against a family of busy-interval
lists: the spec's "no returned available slot satisfies
`slot.start < busy.end AND slot.end > busy.start`". -/
def slotFree (events : List (List Interval)) (s : Interval) : Prop :=
  ∀ evs ∈ events, ∀ ev ∈ evs, ¬(s.1 < ev.2 ∧ ev.1 < s.2)

/-! ### Helper lemmas -/

/-- A take of a non-empty list is non-empty. -/
lemma take_ten_ne_nil {α : Type} {l : List α} (h : l ≠ []) : l.take 10 ≠ [] := by
  cases l with
  | nil => exact absurd rfl h
  | cons a t => simp

/-- Among any three consecutive days there is a weekday. -/
lemma exists_weekday_index (k : Nat) : ∃ i, i < 3 ∧ (k + i) % 7 < 5 := by
  by_cases h0 : k % 7 < 5
  · exact ⟨0, by omega, by omega⟩
  · by_cases h6 : k % 7 = 6
    · exact ⟨1, by omega, by omega⟩
    · exact ⟨2, by omega, by omega⟩

/-- The fallback start is always at 10:00 of some day. -/
lemma default_start_mod (tmin now : Nat) : default_start tmin now % 1440 = 600 := by
  unfold default_start
  split <;> omega

/-- The fallback emits at least one slot whenever its start is at
10:00 of a day: one of three consecutive days is a weekday. -/
lemma default_slots_from_ne_nil (dur ds : Nat) (hds : ds % 1440 = 600) :
    default_slots_from dur ds ≠ [] := by
  obtain ⟨i, hi3, hw⟩ := exists_weekday_index (ds / 1440)
  have hcond : weekday (ds + 1440 * i) < 5 := by
    unfold weekday; omega
  have hmem : ((ds + 1440 * i, ds + 1440 * i + dur) : Interval)
      ∈ default_slots_from dur ds := by
    unfold default_slots_from
    refine List.mem_filterMap.mpr ⟨i, List.mem_range.mpr hi3, ?_⟩
    simp [hcond]
  exact List.ne_nil_of_mem hmem

/-- The effective `find_available_slots` never returns an empty list. -/
lemma find_available_slots_ne_nil (events : List (List Interval))
    (dur tmin tmax now : Nat) :
    find_available_slots events dur tmin tmax now ≠ [] := by
  unfold find_available_slots
  by_cases h : (scanPhase events dur tmin tmax).isEmpty
  · simp only [h, if_pos]
    exact take_ten_ne_nil
      (default_slots_from_ne_nil dur _ (default_start_mod tmin now))
  · simp only [h, if_neg, Bool.false_eq_true, not_false_iff]
    exact take_ten_ne_nil (by simpa [List.isEmpty_iff] using h)

/-- The scan cursor never moves backwards. -/
lemma nextSlot9_ge (c : Nat) : c ≤ nextSlot9 c := by
  unfold nextSlot9
  dsimp only
  split <;> omega

/-- Every slot recorded by the scan loop starts on a weekday inside
business hours, lasts exactly the requested duration, and passed the
availability check. -/
lemma scanSlots_mem {events : List (List Interval)} {dur tmax : Nat} :
    ∀ fuel c s, s ∈ scanSlots events dur tmax fuel c →
      weekday s.1 < 5 ∧ 9 ≤ hourOf s.1 ∧ hourOf s.1 < 17 ∧
      s.2 = s.1 + dur ∧ isAvailable events s.1 s.2 = true := by
  intro fuel
  induction fuel with
  | zero => intro c s h; simp [scanSlots] at h
  | succ f ih =>
    intro c s h
    simp only [scanSlots] at h
    split at h
    · split at h
      · split at h
        · rcases List.mem_cons.mp h with rfl | hmem
          · rename_i hg ha
            exact ⟨hg.1, hg.2.1, hg.2.2, rfl, ha⟩
          · exact ih _ _ hmem
        · exact ih _ _ h
      · exact ih _ _ h
    · simp at h

/-- If every reachable in-hours candidate at or after the cursor is
unavailable, the scan records nothing. -/
lemma scanSlots_eq_nil {events : List (List Interval)} {dur tmax : Nat} :
    ∀ fuel c,
      (∀ x, c ≤ x → x < tmax → 9 ≤ hourOf x → hourOf x < 17 →
        isAvailable events x (x + dur) = false) →
      scanSlots events dur tmax fuel c = [] := by
  intro fuel
  induction fuel with
  | zero => intro c _; rfl
  | succ f ih =>
    intro c H
    have hrest : scanSlots events dur tmax f (nextSlot9 c) = [] :=
      ih _ (fun x hx => H x (le_trans (nextSlot9_ge c) hx))
    simp only [scanSlots, hrest]
    split
    · split
      · rename_i hc hg
        rw [if_neg]
        rw [H c le_rfl hc hg.2.1 hg.2.2]
        simp
      · rfl
    · rfl

/-- Whatever `_find_available_slot` returns has the exact requested
duration and passed both the requester and the attendee overlap
checks. -/
lemma findSlotAux_some {reqEvs : List Interval} {attEvs : List (List Interval)}
    {dur tmax : Nat} :
    ∀ fuel c s, findSlotAux reqEvs attEvs dur tmax fuel c = some s →
      s.2 = s.1 + dur ∧
      (reqEvs.all fun ev => !(overlaps s.1 s.2 ev)) = true ∧
      (attEvs.all fun evs => evs.all fun ev => !(overlaps s.1 s.2 ev)) = true := by
  intro fuel
  induction fuel with
  | zero => intro c s h; simp [findSlotAux] at h
  | succ f ih =>
    intro c s h
    simp only [findSlotAux] at h
    split at h
    · split at h
      · rename_i hfree
        cases h
        exact ⟨rfl, (Bool.and_eq_true_iff.mp hfree).1, (Bool.and_eq_true_iff.mp hfree).2⟩
      · exact ih _ _ h
    · simp at h

/-- A passed `all`-check over one participant's events means no busy
interval of that participant overlaps the slot. -/
lemma all_not_overlaps {l : List Interval} {s e : Nat}
    (h : (l.all fun ev => !(overlaps s e ev)) = true) :
    ∀ ev ∈ l, ¬(s < ev.2 ∧ ev.1 < e) := by
  intro ev hmem hcon
  have h2 := List.all_eq_true.mp h ev hmem
  simp only [overlaps, Bool.not_eq_true', Bool.and_eq_false_iff,
    decide_eq_false_iff_not] at h2
  rcases h2 with h2 | h2 <;> omega

/-- A passed availability check means the slot overlaps no busy
interval of any participant. -/
lemma isAvailable_slotFree {events : List (List Interval)} {s e : Nat}
    (h : isAvailable events s e = true) : slotFree events (s, e) := by
  intro evs hevs ev hev
  have h1 := List.all_eq_true.mp h evs hevs
  exact all_not_overlaps h1 ev hev

/-- Every fallback slot starts at 10:00 on a weekday and has the exact
requested duration. -/
lemma default_slots_from_mem {dur ds : Nat} {s : Interval}
    (hds : ds % 1440 = 600) (h : s ∈ default_slots_from dur ds) :
    weekday s.1 < 5 ∧ hourOf s.1 = 10 ∧ s.2 = s.1 + dur := by
  unfold default_slots_from at h
  obtain ⟨i, _, heq⟩ := List.mem_filterMap.mp h
  dsimp only at heq
  split at heq
  · rename_i hw
    obtain rfl := Option.some.inj heq
    refine ⟨hw, ?_, rfl⟩
    show hourOf (ds + 1440 * i) = 10
    unfold hourOf
    omega
  · exact absurd heq (by simp)

/-- The scan cursor of the scan phase starts at 09:00 of `time_min`'s
day (the subsequent past-17:00 test can never fire). -/
lemma scanStart_eq (tmin : Nat) : scanStart tmin = (tmin / 1440) * 1440 + 9 * 60 := by
  simp only [scanStart, hourOf]
  split <;> omega

/-- A non-empty slot list always decides as `"available"`. -/
lemma decision_available {slots : List Interval} (h : slots ≠ []) :
    check_availability_decision slots = "available" := by
  unfold check_availability_decision
  cases slots with
  | nil => exact absurd rfl h
  | cons a t => rfl

/-! ### Concrete fixtures used by counterexamples and witnesses -/

/-- One participant's busy intervals covering 09:00-17:00 on each of
days 0..7 (the whole primary window of `_check_availability`). -/
def scenario_b_busy : List Interval :=
  [(540, 1020), (1980, 2460), (3420, 3900), (4860, 5340),
   (6300, 6780), (7740, 8220), (9180, 9660), (10620, 11100)]

/-- Scenario B event table: every participant fully booked. -/
def scenario_b_events : List (List Interval) := [scenario_b_busy]

/-- A concrete scheduling request state. -/
def sample_state : ReqState :=
  { request_id := "req-1", subject := "Team Sync",
    email_content := "Lets meet for 30 minutes",
    from_email := "userone.amd@gmail.com",
    attendees := ["userone.amd@gmail.com", "usertwo.amd@gmail.com"],
    timezone := "UTC", location := "" }

/-- The event a successful API insert would echo back. -/
def sample_api_event : EventOut :=
  { summary := "Team Sync", startTime := 600, endTime := 630,
    attendees := ["userone.amd@gmail.com", "usertwo.amd@gmail.com"],
    numAttendees := 2 }

/-! ### Claim theorems -/

/-- Claim C1, counterexample: with one participant busy 00:00-17:00 of
day 0 and the window covering exactly that day, the scan finds
nothing, and the returned fallback slot (600, 630) (10:00-10:30)
overlaps the busy interval under the half-open test
`slot.start < busy.end AND slot.end > busy.start`. -/
theorem C1_counterexample :
    (600, 630) ∈ find_available_slots [[(0, 1020)]] 30 0 1020 0
    ∧ (600 : Nat) < 1020 ∧ (0 : Nat) < 630 := by decide

/-- Claim C1, amended: every slot produced by the scan phase of
`find_available_slots` (hence every returned slot whenever the scan
found anything) and every slot returned by `_find_available_slot`
overlaps no busy interval of any participant; only the default
fallback slots, emitted when the scan finds nothing, are returned
without an overlap check. -/
theorem C1_no_overlap :
    (∀ events dur tmin tmax now s,
        scanPhase events dur tmin tmax ≠ [] →
        s ∈ find_available_slots events dur tmin tmax now →
        slotFree events s)
    ∧ (∀ reqEvs attEvs tmin tmax dur s,
        find_available_slot reqEvs attEvs tmin tmax dur = some s →
        (∀ ev ∈ reqEvs, ¬(s.1 < ev.2 ∧ ev.1 < s.2)) ∧ slotFree attEvs s) := by
  constructor
  · intro events dur tmin tmax now s hscan hmem
    unfold find_available_slots at hmem
    have hie : (scanPhase events dur tmin tmax).isEmpty = false := by
      cases h' : scanPhase events dur tmin tmax with
      | nil => exact absurd h' hscan
      | cons a t => rfl
    simp only [hie, Bool.false_eq_true, if_false] at hmem
    have hmem2 := List.take_subset _ _ hmem
    unfold scanPhase at hmem2
    obtain ⟨_, _, _, _, hav⟩ := scanSlots_mem _ _ _ hmem2
    exact isAvailable_slotFree hav
  · intro reqEvs attEvs tmin tmax dur s hsome
    unfold find_available_slot at hsome
    obtain ⟨_, hreq, hatt⟩ := findSlotAux_some _ _ _ hsome
    refine ⟨all_not_overlaps hreq, ?_⟩
    intro evs hevs ev hev
    exact all_not_overlaps (List.all_eq_true.mp hatt evs hevs) ev hev

/-- Claim C1, witness: the amended theorem applied to a concrete run
whose scan phase found the slot 09:00-09:30 of day 0 clear of the
busy interval (0, 500). -/
theorem C1_witness : slotFree [[(0, 500)]] (540, 570) :=
  C1_no_overlap.1 [[(0, 500)]] 30 0 1020 0 (540, 570) (by decide) (by decide)

/-- Claim C2, counterexample: `_find_available_slot` searched from
Saturday 03:00 (minute 7380 of the reference week) with no busy
events returns that very instant: a slot starting on a weekend, far
outside `[09:00, 17:00)`. -/
theorem C2_counterexample :
    find_available_slot [] [[]] 7380 7980 30 = some (7380, 7410)
    ∧ weekday 7380 = 5 ∧ hourOf 7380 = 3 := by decide

/-- Claim C2, amended: every slot returned by the effective
`find_available_slots` (scan slots and fallback slots alike) starts on
a weekday at a local time within [09:00, 17:00) and lasts exactly the
requested duration; for `_find_available_slot` only the duration
property holds — its candidates are not restricted to weekdays or
business hours. -/
theorem C2_slot_shape :
    (∀ events dur tmin tmax now s,
        s ∈ find_available_slots events dur tmin tmax now →
        weekday s.1 < 5 ∧ 9 ≤ hourOf s.1 ∧ hourOf s.1 < 17 ∧ s.2 = s.1 + dur)
    ∧ (∀ reqEvs attEvs tmin tmax dur s,
        find_available_slot reqEvs attEvs tmin tmax dur = some s →
        s.2 = s.1 + dur) := by
  constructor
  · intro events dur tmin tmax now s hmem
    unfold find_available_slots at hmem
    have hmem2 := List.take_subset _ _ hmem
    by_cases hie : (scanPhase events dur tmin tmax).isEmpty = true
    · rw [if_pos hie] at hmem2
      unfold default_slots at hmem2
      obtain ⟨hw, hh, hd⟩ :=
        default_slots_from_mem (default_start_mod tmin now) hmem2
      exact ⟨hw, by omega, by omega, hd⟩
    · rw [if_neg hie] at hmem2
      unfold scanPhase at hmem2
      obtain ⟨h1, h2, h3, h4, _⟩ := scanSlots_mem _ _ _ hmem2
      exact ⟨h1, h2, h3, h4⟩
  · intro reqEvs attEvs tmin tmax dur s hsome
    unfold find_available_slot at hsome
    exact (findSlotAux_some _ _ _ hsome).1

/-- Claim C2, witness: the amended theorem applied to the scan slot
(540, 570) returned for a one-day window. -/
theorem C2_witness :
    weekday (540 : Nat) < 5 ∧ 9 ≤ hourOf (540 : Nat) ∧ hourOf (540 : Nat) < 17
    ∧ (570 : Nat) = 540 + 30 :=
  C2_slot_shape.1 [[(0, 500)]] 30 0 1020 0 (540, 570) (by decide)

/-- Claim C3, counterexample: with every participant fully booked
09:00-17:00 on every day of the primary window, the decision is still
`"available"` (the fallback slots are non-empty) and the workflow
result has status `"scheduled"`, not `"conflict"`. -/
theorem C3_counterexample :
    check_availability_decision
        (find_available_slots scenario_b_events 30 0 10080 0) = "available"
    ∧ (run_scheduler scenario_b_events 30 0 sample_state true true
        sample_api_event).status = "scheduled" := by decide

/-- Claim C3, amended: when every day of the primary window is fully
booked 09:00-17:00 for some participant and the duration is positive,
the scan phase finds nothing, `find_available_slots` returns the
unchecked default fallback slots, the availability decision is
`"available"`, and the workflow result has status `"scheduled"` — the
conflict branch (with its widened window) is unreachable. -/
theorem C3_fully_booked_still_schedules
    (events : List (List Interval)) (evs : List Interval) (dur now : Nat)
    (st : ReqState) (hasService apiOk : Bool) (apiEvent : EventOut)
    (hdur : 0 < dur) (hmem : evs ∈ events)
    (hbooked : ∀ d, now / 1440 ≤ d → d ≤ (now + 7 * 1440) / 1440 →
      (d * 1440 + 540, d * 1440 + 1020) ∈ evs) :
    scanPhase events dur now (now + 7 * 1440) = []
    ∧ find_available_slots events dur now (now + 7 * 1440) now
        = (default_slots dur now now).take 10
    ∧ check_availability_decision
        (find_available_slots events dur now (now + 7 * 1440) now) = "available"
    ∧ (run_scheduler events dur now st hasService apiOk apiEvent).status
        = "scheduled" := by
  have hscan : scanPhase events dur now (now + 7 * 1440) = [] := by
    unfold scanPhase
    apply scanSlots_eq_nil
    intro x hx hlt hh9 hh17
    rw [scanStart_eq] at hx
    have hd1 : now / 1440 ≤ x / 1440 := by omega
    have hd2 : x / 1440 ≤ (now + 7 * 1440) / 1440 := by omega
    have hbet := hbooked (x / 1440) hd1 hd2
    cases hav : isAvailable events x (x + dur) with
    | false => rfl
    | true =>
      exfalso
      have h1 := List.all_eq_true.mp hav evs hmem
      have h2 := List.all_eq_true.mp h1 _ hbet
      simp only [overlaps, Bool.not_eq_true', Bool.and_eq_false_iff,
        decide_eq_false_iff_not] at h2
      simp only [hourOf] at hh9 hh17
      rcases h2 with h2 | h2 <;> omega
  have hfas : find_available_slots events dur now (now + 7 * 1440) now
      = (default_slots dur now now).take 10 := by
    unfold find_available_slots
    rw [hscan]
    rfl
  have hne := find_available_slots_ne_nil events dur now (now + 7 * 1440) now
  have hdec := decision_available hne
  refine ⟨hscan, hfas, hdec, ?_⟩
  obtain ⟨a, t, heq⟩ : ∃ a t,
      find_available_slots events dur now (now + 7 * 1440) now = a :: t := by
    cases h' : find_available_slots events dur now (now + 7 * 1440) now with
    | nil => exact absurd h' hne
    | cons a t => exact ⟨a, t, rfl⟩
  simp only [run_scheduler, heq]
  rw [if_pos (decision_available (by simp))]
  rfl

/-- Claim C3, witness: the amended theorem applied to the concrete
Scenario B fixture. -/
theorem C3_witness :
    scanPhase scenario_b_events 30 0 10080 = []
    ∧ find_available_slots scenario_b_events 30 0 10080 0
        = (default_slots 30 0 0).take 10
    ∧ check_availability_decision
        (find_available_slots scenario_b_events 30 0 10080 0) = "available"
    ∧ (run_scheduler scenario_b_events 30 0 sample_state true true
        sample_api_event).status = "scheduled" :=
  C3_fully_booked_still_schedules scenario_b_events scenario_b_busy 30 0
    sample_state true true sample_api_event (by decide) (by decide)
    (by intro d h1 h2
        have h3 : d ≤ 7 := by omega
        interval_cases d <;> decide)

/-- Claim C4: for any inputs with `time_min < time_max` the effective
`find_available_slots` returns a non-empty list (the fallback always
emits at least one weekday slot among three consecutive days), so
`_check_availability_decision` answers `"available"` and the workflow
never produces a `"conflict"` response. -/
theorem C4_never_conflict
    (events : List (List Interval)) (dur tmin tmax now : Nat)
    (st : ReqState) (hasService apiOk : Bool) (apiEvent : EventOut)
    (_hlt : tmin < tmax) :
    find_available_slots events dur tmin tmax now ≠ []
    ∧ check_availability_decision
        (find_available_slots events dur tmin tmax now) = "available"
    ∧ (run_scheduler events dur now st hasService apiOk apiEvent).status
        ≠ "conflict" := by
  refine ⟨find_available_slots_ne_nil _ _ _ _ _,
    decision_available (find_available_slots_ne_nil _ _ _ _ _), ?_⟩
  have hne := find_available_slots_ne_nil events dur now (now + 7 * 1440) now
  obtain ⟨a, t, heq⟩ : ∃ a t,
      find_available_slots events dur now (now + 7 * 1440) now = a :: t := by
    cases h' : find_available_slots events dur now (now + 7 * 1440) now with
    | nil => exact absurd h' hne
    | cons a t => exact ⟨a, t, rfl⟩
  simp only [run_scheduler, heq]
  rw [if_pos (decision_available (by simp))]
  show ("scheduled" : String) ≠ "conflict"
  decide

/-- Claim C4, witness: the theorem applied to a one-minute window with
one unconstrained participant. -/
theorem C4_witness :
    find_available_slots [[]] 30 0 1 0 ≠ []
    ∧ check_availability_decision (find_available_slots [[]] 30 0 1 0) = "available"
    ∧ (run_scheduler [[]] 30 0 sample_state true true sample_api_event).status
        ≠ "conflict" :=
  C4_never_conflict [[]] 30 0 1 0 sample_state true true sample_api_event
    (by decide)

/-- Claim C5: the two `find_available_slots` definitions disagree on a
concrete input — an empty busy table over one business day: the first
(per-day, end-of-day-bounded, uncapped) returns 16 slots, the second
(global scan, capped at 10) returns 10. -/
theorem C5_implementations_differ :
    find_available_slots_v1 [[]] 30 0 1020 ≠ find_available_slots [[]] 30 0 1020 0 := by
  decide

/-- Claim C6, counterexample: a failed lookup for
`userone.amd@gmail.com` yields that user's non-empty mock busy
intervals — not an empty, fully-free list — and those mock intervals
do block the slot search: the first slot differs from the one found
with an empty event list. -/
theorem C6_counterexample :
    get_events "userone.amd@gmail.com" none ≠ []
    ∧ find_available_slot [] [get_events "userone.amd@gmail.com" none]
        286860 286950 30
      ≠ find_available_slot [] [[]] 286860 286950 30 := by decide

/-- Claim C6, amended: a failed busy-interval lookup is absorbed
inside `get_events`, which substitutes the participant's mock busy
intervals; scheduling proceeds non-fatally, and any slot the engine
then finds respects the mock intervals — the participant is
constrained by mock data rather than treated as fully free. -/
theorem C6_failed_lookup_uses_mock
    (user : String) (reqEvs : List Interval) (tmin tmax dur : Nat) (s : Interval)
    (h : find_available_slot reqEvs [get_events user none] tmin tmax dur = some s) :
    get_events user none = mock_events user
    ∧ ∀ ev ∈ mock_events user, ¬(s.1 < ev.2 ∧ ev.1 < s.2) := by
  have hg : get_events user none = mock_events user := rfl
  refine ⟨hg, ?_⟩
  rw [hg] at h
  unfold find_available_slot at h
  obtain ⟨_, _, hatt⟩ := findSlotAux_some _ _ _ h
  intro ev hev
  exact all_not_overlaps (List.all_eq_true.mp hatt _ (by simp)) ev hev

/-- Claim C6, witness: the amended theorem applied to the concrete
failed lookup for `userone.amd@gmail.com`. -/
theorem C6_witness :
    get_events "userone.amd@gmail.com" none = mock_events "userone.amd@gmail.com"
    ∧ ∀ ev ∈ mock_events "userone.amd@gmail.com",
        ¬((286890 : Nat) < ev.2 ∧ ev.1 < (286920 : Nat)) :=
  C6_failed_lookup_uses_mock "userone.amd@gmail.com" [] 286860 286950 30
    (286890, 286920) (by decide)

/-- Claim C7: evaluating the "this week" branch on a Wednesday at
10:30 IST (minute 3180 UTC of the reference week) produces a window
ending the same Wednesday at 17:00 IST — not this Friday 17:00 as the
code's own comment intends: the computed days-ahead-to-Friday value is
never used on that path. -/
theorem C7_this_week_ends_today :
    parse_time_constraints "this week" 3180 = (3150, 3570)
    ∧ weekday (3570 + 330) = 2 ∧ hourOf (3570 + 330) = 17 := by decide

/-- Claim C8: the resolver is a total function, and on a hint
containing none of its vocabulary patterns it returns the default
window `[now, now + 7 days)`. -/
theorem C8_no_match_default_window (hint : String) (now : Nat)
    (h : ∀ p ∈ vocab_patterns, strContains (toLowerStr hint) p = false) :
    parse_time_constraints hint now = (now, now + 7 * 1440) := by
  have h1 := h "thursday" (by simp [vocab_patterns])
  have h2 := h "thurs" (by simp [vocab_patterns])
  have h3 := h "monday" (by simp [vocab_patterns])
  have h4 := h "tuesday" (by simp [vocab_patterns])
  have h5 := h "wednesday" (by simp [vocab_patterns])
  have h6 := h "friday" (by simp [vocab_patterns])
  have h7 := h "saturday" (by simp [vocab_patterns])
  have h8 := h "sunday" (by simp [vocab_patterns])
  have h9 := h "next week" (by simp [vocab_patterns])
  have h10 := h "this week" (by simp [vocab_patterns])
  simp [parse_time_constraints, days_list, List.find?, h1, h2, h3, h4, h5,
    h6, h7, h8, h9, h10]

/-- Claim C8, witness: the theorem applied to a hint outside the
vocabulary. -/
theorem C8_witness :
    parse_time_constraints "please find a good time" 1000 = (1000, 1000 + 7 * 1440) :=
  C8_no_match_default_window "please find a good time" 1000 (by decide)

/-- Claim C9, counterexample: when event creation fails, the response
is byte-for-byte identical to the success response — status
`"scheduled"`, the fixed success message, no error entry: the
creation error is not surfaced anywhere in the result. -/
theorem C9_counterexample :
    generate_response
        (schedule_event_node sample_state (600, 630) true false sample_api_event)
      = generate_response
        (schedule_event_node sample_state (600, 630) true true sample_api_event)
    ∧ (generate_response
        (schedule_event_node sample_state (600, 630) true false sample_api_event)).message
      = some "Meeting successfully scheduled"
    ∧ (generate_response
        (schedule_event_node sample_state (600, 630) true false sample_api_event)).errors
      = none := by decide

/-- Claim C9, amended: a creation failure does not downgrade the
result — status stays `"scheduled"` with the chosen slot as its
start/end — but no creation-error annotation exists either: the
response is identical to the success-case response, the error being
only logged. -/
theorem C9_creation_failure_invisible
    (st : ReqState) (slot : Interval) (hasService : Bool) (apiEvent : EventOut) :
    generate_response (schedule_event_node st slot hasService false apiEvent)
      = generate_response (schedule_event_node st slot hasService true apiEvent)
    ∧ (generate_response (schedule_event_node st slot hasService false apiEvent)).status
      = "scheduled"
    ∧ (generate_response (schedule_event_node st slot hasService false apiEvent)).scheduled_events
      = some [{ start_time := slot.1, end_time := slot.2,
                attendees := st.attendees, summary := st.subject }]
    ∧ (generate_response (schedule_event_node st slot hasService false apiEvent)).errors
      = none :=
  ⟨rfl, rfl, rfl, rfl⟩

/-- Claim C10, counterexample: same window, duration and busy set, two
different clock readings: the scan finds nothing, the fallback
consults the clock, and the two invocations return different first
slots. -/
theorem C10_counterexample :
    (find_available_slots [[(0, 1020)]] 30 0 1020 0).head?
      ≠ (find_available_slots [[(0, 1020)]] 30 0 1020 700).head? := by decide

/-- Claim C10, amended: the scan itself is deterministic and
clock-independent — whenever the scan phase finds at least one slot,
invocations at different clock readings return identical slot lists
(hence identical first slots); only the fallback path depends on the
clock. `_find_available_slot` takes no clock input at all. -/
theorem C10_scan_clock_independent
    (events : List (List Interval)) (dur tmin tmax now1 now2 : Nat)
    (h : scanPhase events dur tmin tmax ≠ []) :
    find_available_slots events dur tmin tmax now1
      = find_available_slots events dur tmin tmax now2 := by
  unfold find_available_slots
  have hie : (scanPhase events dur tmin tmax).isEmpty = false := by
    cases h' : scanPhase events dur tmin tmax with
    | nil => exact absurd h' h
    | cons a t => rfl
  simp only [hie, Bool.false_eq_true, if_false]

/-- Claim C10, witness: the amended theorem applied to a window whose
scan succeeds, at two different clock readings. -/
theorem C10_witness :
    find_available_slots [[]] 30 0 1020 0 = find_available_slots [[]] 30 0 1020 999 :=
  C10_scan_clock_independent [[]] 30 0 1020 0 999 (by decide)

end AIScheduler
